import Mathlib

/-!
Shallow embedding of scrapy/downloadermiddlewares/retry.py
(class RetryMiddleware with its entry points process_response and
process_exception, and the shared decision core _retry), together with
theorems settling the specification claims about it.

Modelling decisions:
- Python ints are Lean Int.
- request.meta is modelled with its three reserved keys (dont_retry,
  retry_times, max_retry_times), each optional since a Python dict may
  lack the key, plus an opaque association list for all other entries.
- The stats sink (spider.crawler.stats) is a counter map String → Nat,
  threaded explicitly; inc_value increments one key.
- An exception value carries its fully-qualified type name and a
  message string; isinstance(exc, exceptions_to_retry) is membership of
  the type name in the configured list.
- The reason argument of _retry is either the rendered status message
  string or the exception object, as in the source.
-/

/-- Stats counter key literal from the source: stats.inc_value of retry slash count. -/
def retryCountKey : String := "retry/count"

/-- Stats counter key from the source: retry slash reason_count slash the rendered reason. -/
def reasonCountKey (s : String) : String := "retry/reason_count/" ++ s

/-- Stats counter key literal from the source: retry slash max_reached. -/
def maxReachedKey : String := "retry/max_reached"

/-- The reserved meta keys of a request, each optional as in a Python dict,
plus the remaining (opaque) meta entries. -/
structure Meta where
  dont_retry : Option Bool
  retry_times : Option Int
  max_retry_times : Option Int
  other : List (String × Int)
deriving DecidableEq

/-- A request: url (standing for all non-meta payload fields), scheduling
priority, the dont_filter flag and the meta mapping. -/
structure Request where
  url : String
  priority : Int
  dont_filter : Bool
  meta : Meta
deriving DecidableEq

/-- A response: integer status code and a body (unread by this core). -/
structure Response where
  status : Int
  body : String
deriving DecidableEq

/-- An exception-like value: its fully-qualified type name and its message. -/
structure Exc where
  excType : String
  message : String
deriving DecidableEq

/-- The stats sink: a counter per key. -/
def Stats : Type := String → Nat

/-- Modelled from the spec: the external StatsSink increment contract,
increment(counter_name); bumps exactly the given key. -/
def Stats.inc_value (s : Stats) (key : String) : Stats :=
  fun k => if k = key then s k + 1 else s k

/-- The reason passed to _retry: either the rendered status message string
(response path) or the exception object itself (exception path). -/
inductive Reason where
  | statusMsg : String → Reason
  | exc : Exc → Reason
deriving DecidableEq

/-- Modelled from the spec: global_object_name (scrapy.utils.python, not under
src) applied to the exception class returns its fully-qualified type name. -/
def global_object_name (e : Exc) : String := e.excType

/-- The rendering of the reason performed inside _retry: an exception reason is
replaced by the fully-qualified name of its class, a string reason is kept. -/
def Reason.render : Reason → String
  | Reason.statusMsg s => s
  | Reason.exc e => global_object_name e

/-- Modelled from the spec: response_status_message (scrapy.utils.response, not
under src) computes a human-readable reason string from the status code alone. -/
def response_status_message (status : Int) : String := toString status

/-- The RetryMiddleware configuration, fixed at construction: RETRY_TIMES,
RETRY_HTTP_CODES, RETRY_PRIORITY_ADJUST and the resolved retryable exception
type names. -/
structure RetryMiddleware where
  max_retry_times : Int
  retry_http_codes : List Int
  priority_adjust : Int
  exceptions_to_retry : List String
deriving DecidableEq

/-- RetryMiddleware._retry: computes retries = meta retry_times (default 0) + 1,
lets the per-request max_retry_times meta key override the global maximum, and
either builds the retry request (copy with retry_times bumped, dont_filter set,
priority adjusted) while bumping retry/count and retry/reason_count, or bumps
retry/max_reached and returns no request. -/
def RetryMiddleware._retry (m : RetryMiddleware) (request : Request)
    (reason : Reason) (stats : Stats) : Option Request × Stats :=
  let retries : Int := request.meta.retry_times.getD 0 + 1
  let retry_times : Int :=
    match request.meta.max_retry_times with
    | some v => v
    | none => m.max_retry_times
  if retries ≤ retry_times then
    let retryreq : Request :=
      { request with
          meta := { request.meta with retry_times := some retries }
          dont_filter := true
          priority := request.priority + m.priority_adjust }
    let stats1 := (stats.inc_value retryCountKey).inc_value (reasonCountKey reason.render)
    (some retryreq, stats1)
  else
    (none, stats.inc_value maxReachedKey)

/-- The result of process_response: either a response passed through or a new
request to reschedule. -/
inductive RespResult where
  | resp : Response → RespResult
  | req : Request → RespResult
deriving DecidableEq

/-- RetryMiddleware.process_response: pass the response through when
dont_retry is set; when the status is in retry_http_codes, delegate to _retry
with the rendered status message and fall back to the response when _retry
yields no request; otherwise pass the response through. -/
def RetryMiddleware.process_response (m : RetryMiddleware) (request : Request)
    (response : Response) (stats : Stats) : RespResult × Stats :=
  if request.meta.dont_retry.getD false then
    (RespResult.resp response, stats)
  else if response.status ∈ m.retry_http_codes then
    match m._retry request (Reason.statusMsg (response_status_message response.status)) stats with
    | (some retryreq, stats1) => (RespResult.req retryreq, stats1)
    | (none, stats1) => (RespResult.resp response, stats1)
  else
    (RespResult.resp response, stats)

/-- RetryMiddleware.process_exception: when the exception type is retryable and
dont_retry is not set, delegate to _retry with the exception as the reason;
otherwise return no decision (Python None) and leave the stats untouched. -/
def RetryMiddleware.process_exception (m : RetryMiddleware) (request : Request)
    (exception : Exc) (stats : Stats) : Option Request × Stats :=
  if exception.excType ∈ m.exceptions_to_retry
      ∧ request.meta.dont_retry.getD false = false then
    m._retry request (Reason.exc exception) stats
  else
    (none, stats)

/-- The effective maximum of the shared retry procedure: the per-request
max_retry_times meta value when present, the global policy value otherwise. -/
def effective_max (m : RetryMiddleware) (r : Request) : Int :=
  match r.meta.max_retry_times with
  | some v => v
  | none => m.max_retry_times

/-- The retry request built by _retry on the retry branch: a structural copy of
the original with retry_times bumped, dont_filter forced and priority adjusted. -/
def retried_request (m : RetryMiddleware) (r : Request) : Request :=
  { r with
      meta := { r.meta with retry_times := some (r.meta.retry_times.getD 0 + 1) }
      dont_filter := true
      priority := r.priority + m.priority_adjust }

/-- Chain of n successive retries of a request through _retry, stopping with
none as soon as one invocation declines to retry. -/
def retryN (m : RetryMiddleware) (reason : Reason) (stats : Stats) :
    Nat → Request → Option Request
  | 0, r => some r
  | n + 1, r =>
    match (m._retry r reason stats).1 with
    | some r1 => retryN m reason stats n r1
    | none => none

theorem retry_fst_eq (m : RetryMiddleware) (r : Request) (reason : Reason)
    (stats : Stats) :
    (m._retry r reason stats).1 =
      if r.meta.retry_times.getD 0 + 1 ≤ effective_max m r
      then some (retried_request m r) else none := by
  unfold RetryMiddleware._retry effective_max retried_request
  by_cases h : r.meta.retry_times.getD 0 + 1 ≤
      (match r.meta.max_retry_times with
       | some v => v
       | none => m.max_retry_times)
  · simp [h]
  · simp [h]

theorem retry_snd_eq (m : RetryMiddleware) (r : Request) (reason : Reason)
    (stats : Stats) :
    (m._retry r reason stats).2 =
      if r.meta.retry_times.getD 0 + 1 ≤ effective_max m r
      then (stats.inc_value retryCountKey).inc_value (reasonCountKey reason.render)
      else stats.inc_value maxReachedKey := by
  unfold RetryMiddleware._retry effective_max
  by_cases h : r.meta.retry_times.getD 0 + 1 ≤
      (match r.meta.max_retry_times with
       | some v => v
       | none => m.max_retry_times)
  · simp [h]
  · simp [h]

theorem retry_some_eq (m : RetryMiddleware) (r : Request) (reason : Reason)
    (stats : Stats) (req1 : Request)
    (h : (m._retry r reason stats).1 = some req1) :
    req1 = retried_request m r := by
  rw [retry_fst_eq] at h
  by_cases hle : r.meta.retry_times.getD 0 + 1 ≤ effective_max m r
  · rw [if_pos hle] at h
    exact (Option.some_injective Request h).symm
  · rw [if_neg hle] at h
    exact absurd h (by simp)

theorem inc_value_self (s : Stats) (k : String) :
    s.inc_value k k = s k + 1 := by
  unfold Stats.inc_value
  simp

theorem inc_value_other (s : Stats) (k k1 : String) (h : k1 ≠ k) :
    s.inc_value k k1 = s k1 := by
  unfold Stats.inc_value
  simp [h]

theorem reasonCountKey_length (s : String) :
    (reasonCountKey s).length = 19 + s.length := by
  unfold reasonCountKey
  rw [String.length_append]
  norm_num [show ("retry/reason_count/").length = 19 from rfl]

theorem reasonCountKey_ne_retryCountKey (s : String) :
    reasonCountKey s ≠ retryCountKey := by
  intro h
  have h1 := congrArg String.length h
  rw [reasonCountKey_length] at h1
  have h2 : retryCountKey.length = 11 := rfl
  omega

theorem reasonCountKey_ne_maxReachedKey (s : String) :
    reasonCountKey s ≠ maxReachedKey := by
  intro h
  have h1 := congrArg String.length h
  rw [reasonCountKey_length] at h1
  have h2 : maxReachedKey.length = 17 := rfl
  omega

/-- Empty meta mapping: no reserved keys, no other entries. -/
def metaEmpty : Meta := ⟨ none, none, none, [] ⟩

/-- A sample url for concrete requests. -/
def urlA : String := "http://www.scrapytest.org/"

/-- A fresh request: no meta keys set, priority 0, dont_filter false. -/
def reqA : Request := ⟨ urlA, 0, false, metaEmpty ⟩

/-- The all-zero stats sink. -/
def statsZero : Stats := fun _ => 0

/-- A policy with the default configuration: two retries, the default
retryable status codes, priority adjust minus one, one retryable exception. -/
def mDefault : RetryMiddleware :=
  ⟨ 2, [500, 502, 503, 504, 522, 524, 408, 429], -1,
    [ "twisted.internet.defer.TimeoutError" ] ⟩

/-- A policy whose global maximum is zero. -/
def mZero : RetryMiddleware := ⟨ 0, [500], 0, [] ⟩

/-- A policy with global maximum three, used with a per-request override. -/
def mOverride : RetryMiddleware := ⟨ 3, [500], -1, [] ⟩

/-- A request carrying the per-request override max_retry_times equal to one. -/
def reqOv : Request := ⟨ urlA, 0, false, ⟨ none, none, some 1, [] ⟩ ⟩

/-- A status-message reason for the concrete tests. -/
def reasonA : Reason := Reason.statusMsg (response_status_message 500)

theorem effective_max_examples :
    effective_max mZero reqA = 0 ∧ effective_max mOverride reqOv = 1 := by
  constructor <;> rfl

/-- C1: the shared retry procedure produces a retry request iff
attempts = meta retry_times (default 0) + 1 is at most the effective maximum,
where the effective maximum is the per-request max_retry_times meta value when
present and the global policy value otherwise, with no merging; in particular a
policy with max_retry_times = 0 and no override never retries, and a
per-request override fully replaces the global maximum (global 3, override 1:
exactly one retry). -/
theorem retry_iff_attempts_le_effective_max
    (m : RetryMiddleware) (r : Request) (reason : Reason) (stats : Stats) :
    ((m._retry r reason stats).1.isSome = true ↔
        r.meta.retry_times.getD 0 + 1 ≤ effective_max m r)
    ∧ (m.max_retry_times = 0 → r.meta.max_retry_times = none →
        0 ≤ r.meta.retry_times.getD 0 → (m._retry r reason stats).1 = none)
    ∧ (m.max_retry_times = 3 → r.meta.max_retry_times = some 1 →
        r.meta.retry_times = none →
        (m._retry r reason stats).1 = some (retried_request m r)
          ∧ ∀ stats1 reason1,
              (m._retry (retried_request m r) reason1 stats1).1 = none) := by
  refine ⟨ ?_, ?_, ?_ ⟩
  · rw [retry_fst_eq]
    by_cases h : r.meta.retry_times.getD 0 + 1 ≤ effective_max m r
    · simp [h]
    · simp [h]
  · intro hm hov hnn
    rw [retry_fst_eq]
    have hmax : effective_max m r = 0 := by
      unfold effective_max
      rw [hov, hm]
    rw [hmax]
    simp
    omega
  · intro hm hov hrt
    have hmax : effective_max m r = 1 := by
      unfold effective_max
      rw [hov]
    constructor
    · rw [retry_fst_eq, hmax, hrt]
      simp
    · intro stats1 reason1
      rw [retry_fst_eq]
      have hmax1 : effective_max m (retried_request m r) = 1 := by
        unfold effective_max retried_request
        simp [hov]
      rw [hmax1]
      unfold retried_request
      rw [hrt]
      simp

/-- Witness for C1 at concrete inputs: a policy with global maximum 0 declines
a fresh request, and with global maximum 3 but per-request override 1 the fresh
request is retried exactly once. -/
theorem retry_iff_attempts_le_effective_max_witness :
    (mZero._retry reqA reasonA statsZero).1 = none
    ∧ (mOverride._retry reqOv reasonA statsZero).1
        = some (retried_request mOverride reqOv)
    ∧ (mOverride._retry (retried_request mOverride reqOv) reasonA statsZero).1
        = none := by
  refine ⟨ ?_, ?_, ?_ ⟩
  · exact (retry_iff_attempts_le_effective_max mZero reqA reasonA statsZero).2.1
      rfl rfl (by decide)
  · exact ((retry_iff_attempts_le_effective_max mOverride reqOv reasonA
      statsZero).2.2 rfl rfl rfl).1
  · exact ((retry_iff_attempts_le_effective_max mOverride reqOv reasonA
      statsZero).2.2 rfl rfl rfl).2 statsZero reasonA

/-- C2: with dont_retry set in the request meta, process_response returns the
response unchanged (before even looking at the status) and process_exception
returns no decision, whatever the status code or exception type. -/
theorem dont_retry_pass_through
    (m : RetryMiddleware) (r : Request) (stats : Stats)
    (h : r.meta.dont_retry.getD false = true) :
    (∀ response : Response,
        m.process_response r response stats = (RespResult.resp response, stats))
    ∧ (∀ e : Exc, m.process_exception r e stats = (none, stats)) := by
  constructor
  · intro response
    unfold RetryMiddleware.process_response
    simp [h]
  · intro e
    unfold RetryMiddleware.process_exception
    simp [h]

/-- A request with dont_retry set in its meta. -/
def reqDR : Request := ⟨ urlA, 0, false, ⟨ some true, none, none, [] ⟩ ⟩

/-- A retryable-status response with an empty body. -/
def resp500 : Response := ⟨ 500, "" ⟩

/-- A retryable exception of the configured type. -/
def excA : Exc := ⟨ "twisted.internet.defer.TimeoutError", "first message" ⟩

/-- Witness for C2 at concrete inputs: a dont_retry request passes a 500
response through unchanged and yields no decision on a retryable exception. -/
theorem dont_retry_pass_through_witness :
    mDefault.process_response reqDR resp500 statsZero
      = (RespResult.resp resp500, statsZero)
    ∧ mDefault.process_exception reqDR excA statsZero = (none, statsZero) := by
  exact ⟨ (dont_retry_pass_through mDefault reqDR statsZero rfl).1 resp500,
          (dont_retry_pass_through mDefault reqDR statsZero rfl).2 excA ⟩

/-- C3: every request produced by the shared retry procedure is a structural
copy of the original in which exactly three things differ: the retry_times
meta entry becomes the old value (default 0) plus one, dont_filter becomes
true, and priority becomes the original priority plus priority_adjust (with no
clamping, for any priority_adjust); the url, the dont_retry and
max_retry_times meta entries and every other meta entry are preserved. -/
theorem retried_request_structure
    (m : RetryMiddleware) (r : Request) (reason : Reason) (stats : Stats)
    (req1 : Request) (h : (m._retry r reason stats).1 = some req1) :
    req1.meta.retry_times = some (r.meta.retry_times.getD 0 + 1)
    ∧ req1.dont_filter = true
    ∧ req1.priority = r.priority + m.priority_adjust
    ∧ req1.url = r.url
    ∧ req1.meta.dont_retry = r.meta.dont_retry
    ∧ req1.meta.max_retry_times = r.meta.max_retry_times
    ∧ req1.meta.other = r.meta.other := by
  have h1 := retry_some_eq m r reason stats req1 h
  subst h1
  unfold retried_request
  simp

/-- Witness for C3 at a concrete input: the request retried by the default
policy (priority_adjust = -1) from a fresh request. -/
theorem retried_request_structure_witness :
    (retried_request mDefault reqA).meta.retry_times = some 1
    ∧ (retried_request mDefault reqA).dont_filter = true
    ∧ (retried_request mDefault reqA).priority = reqA.priority + (-1)
    ∧ (retried_request mDefault reqA).url = reqA.url := by
  have H := retried_request_structure mDefault reqA reasonA statsZero
    (retried_request mDefault reqA) (by decide)
  exact ⟨ H.1, H.2.1, H.2.2.1, H.2.2.2.1 ⟩

/-- C4: without dont_retry, a response whose status is in retry_http_codes
makes process_response invoke the shared retry procedure with the reason
derived from the status code (falling back to the response when it declines),
while a status outside the set passes the original response through with the
stats untouched. -/
theorem response_path_classification
    (m : RetryMiddleware) (r : Request) (response : Response) (stats : Stats)
    (hdr : r.meta.dont_retry.getD false = false) :
    (response.status ∈ m.retry_http_codes →
        m.process_response r response stats =
          (match m._retry r
              (Reason.statusMsg (response_status_message response.status)) stats with
           | (some q, s1) => (RespResult.req q, s1)
           | (none, s1) => (RespResult.resp response, s1)))
    ∧ (response.status ∉ m.retry_http_codes →
        m.process_response r response stats = (RespResult.resp response, stats)) := by
  constructor
  · intro hin
    unfold RetryMiddleware.process_response
    simp [hdr, hin]
  · intro hout
    unfold RetryMiddleware.process_response
    simp [hdr, hout]

/-- A 503 response, whose status is among the default retryable codes. -/
def resp503 : Response := ⟨ 503, "Service Unavailable" ⟩

/-- A 404 response, whose status is not among the default retryable codes. -/
def resp404 : Response := ⟨ 404, "Not Found" ⟩

/-- Witness for C4 at concrete inputs: with the default codes, status 503
yields one retry and status 404 passes the response through unchanged. -/
theorem response_path_classification_witness :
    (mDefault.process_response reqA resp503 statsZero).1
      = RespResult.req (retried_request mDefault reqA)
    ∧ mDefault.process_response reqA resp404 statsZero
      = (RespResult.resp resp404, statsZero) := by
  constructor
  · have H := (response_path_classification mDefault reqA resp503 statsZero
      rfl).1 (by decide)
    rw [H]
    decide
  · exact (response_path_classification mDefault reqA resp404 statsZero
      rfl).2 (by decide)

/-- C5: once attempts exceed the effective maximum the two entry points behave
asymmetrically: the shared procedure yields no new request, process_response
returns the original response object, and process_exception yields no decision
so the exception propagates. -/
theorem exhausted_budget_asymmetry
    (m : RetryMiddleware) (r : Request) (stats : Stats)
    (h : effective_max m r < r.meta.retry_times.getD 0 + 1) :
    (∀ reason, (m._retry r reason stats).1 = none)
    ∧ (∀ response, (m.process_response r response stats).1
        = RespResult.resp response)
    ∧ (∀ e, (m.process_exception r e stats).1 = none) := by
  have hnone : ∀ reason, (m._retry r reason stats).1 = none := by
    intro reason
    rw [retry_fst_eq]
    rw [if_neg (by omega)]
  refine ⟨ hnone, ?_, ?_ ⟩
  · intro response
    unfold RetryMiddleware.process_response
    by_cases hdr : r.meta.dont_retry.getD false
    · simp [hdr]
    · by_cases hin : response.status ∈ m.retry_http_codes
      · simp only [hdr, hin, Bool.false_eq_true, if_false, if_true]
        have h1 := hnone (Reason.statusMsg (response_status_message response.status))
        rcases heq : m._retry r
            (Reason.statusMsg (response_status_message response.status)) stats
          with ⟨ o, s1 ⟩
        rw [heq] at h1
        simp at h1
        subst h1
        rfl
      · simp [hdr, hin]
  · intro e
    unfold RetryMiddleware.process_exception
    by_cases hc : e.excType ∈ m.exceptions_to_retry
        ∧ r.meta.dont_retry.getD false = false
    · rw [if_pos hc]
      exact hnone (Reason.exc e)
    · rw [if_neg hc]

/-- A request that has already been retried three times. -/
def reqT3 : Request := ⟨ urlA, 0, false, ⟨ none, some 3, none, [] ⟩ ⟩

/-- Witness for C5 at a concrete input: with the default policy (maximum 2) a
request already retried three times is not retried again by either entry
point, and the original 503 response is returned. -/
theorem exhausted_budget_asymmetry_witness :
    (mDefault._retry reqT3 reasonA statsZero).1 = none
    ∧ (mDefault.process_response reqT3 resp503 statsZero).1
        = RespResult.resp resp503
    ∧ (mDefault.process_exception reqT3 excA statsZero).1 = none := by
  have H := exhausted_budget_asymmetry mDefault reqT3 statsZero (by decide)
  exact ⟨ H.1 reasonA, H.2.1 resp503, H.2.2 excA ⟩

theorem retryN_retry_times (m : RetryMiddleware) (reason : Reason)
    (stats : Stats) :
    ∀ (n : Nat) (r req1 : Request),
      retryN m reason stats n r = some req1 →
      req1.meta.retry_times.getD 0 = r.meta.retry_times.getD 0 + n := by
  intro n
  induction n with
  | zero =>
    intro r req1 h
    unfold retryN at h
    simp at h
    subst h
    simp
  | succ k ih =>
    intro r req1 h
    unfold retryN at h
    rcases heq : (m._retry r reason stats).1 with _ | r1
    · rw [heq] at h
      exact absurd h (by simp)
    · rw [heq] at h
      have hstep := retry_some_eq m r reason stats r1 heq
      have h1 := ih r1 req1 h
      rw [h1, hstep]
      unfold retried_request
      push_cast
      simp
      omega

/-- C6: each successful retry sets the new request's retry_times meta entry to
exactly the previous value (default 0) plus 1 — hence strictly above the old
value whenever that value is the non-negative attempt count — and a chain of N
successful retries of a request with no retry_times entry ends with
retry_times equal to N. -/
theorem retry_times_increments (m : RetryMiddleware) :
    (∀ (r : Request) (reason : Reason) (stats : Stats) (req1 : Request),
        (m._retry r reason stats).1 = some req1 →
        req1.meta.retry_times = some (r.meta.retry_times.getD 0 + 1)
          ∧ (0 ≤ r.meta.retry_times.getD 0 →
              r.meta.retry_times.getD 0 < req1.meta.retry_times.getD 0))
    ∧ (∀ (n : Nat) (r : Request) (reason : Reason) (stats : Stats)
          (req1 : Request),
        r.meta.retry_times = none →
        retryN m reason stats n r = some req1 →
        req1.meta.retry_times.getD 0 = (n : Int)) := by
  constructor
  · intro r reason stats req1 h
    have hstep := retry_some_eq m r reason stats req1 h
    subst hstep
    constructor
    · rfl
    · intro hnn
      simp [retried_request]
  · intro n r reason stats req1 h0 h
    have h1 := retryN_retry_times m reason stats n r req1 h
    rw [h0] at h1
    simpa using h1

/-- Witness for C6 at a concrete input: two successive retries of a fresh
request under the default policy leave retry_times equal to 2. -/
theorem retry_times_increments_witness :
    (retried_request mDefault (retried_request mDefault reqA)).meta.retry_times.getD 0
      = (2 : Int) := by
  exact (retry_times_increments mDefault).2 2 reqA reasonA statsZero
    (retried_request mDefault (retried_request mDefault reqA)) rfl (by decide)

/-- C7: on every retry decision the counters retry/count and
retry/reason_count/(rendered reason) are each incremented exactly once (every
other key is untouched), and for an exception reason the rendered string is
the exception's fully-qualified type name, so two exceptions of the same type
with different messages drive the very same invocation result. -/
theorem retry_stats_increment
    (m : RetryMiddleware) (r : Request) (reason : Reason) (stats : Stats)
    (req1 : Request) (h : (m._retry r reason stats).1 = some req1) :
    ((m._retry r reason stats).2 retryCountKey = stats retryCountKey + 1)
    ∧ ((m._retry r reason stats).2 (reasonCountKey reason.render)
        = stats (reasonCountKey reason.render) + 1)
    ∧ (∀ k, k ≠ retryCountKey → k ≠ reasonCountKey reason.render →
        (m._retry r reason stats).2 k = stats k)
    ∧ (∀ e : Exc, reason = Reason.exc e → reason.render = e.excType)
    ∧ (∀ e1 e2 : Exc, e1.excType = e2.excType →
        m._retry r (Reason.exc e1) stats = m._retry r (Reason.exc e2) stats) := by
  have hle : r.meta.retry_times.getD 0 + 1 ≤ effective_max m r := by
    rw [retry_fst_eq] at h
    by_cases hle : r.meta.retry_times.getD 0 + 1 ≤ effective_max m r
    · exact hle
    · rw [if_neg hle] at h
      exact absurd h (by simp)
  have hsnd := retry_snd_eq m r reason stats
  rw [if_pos hle] at hsnd
  refine ⟨ ?_, ?_, ?_, ?_, ?_ ⟩
  · rw [hsnd,
        inc_value_other (stats.inc_value retryCountKey)
          (reasonCountKey reason.render) retryCountKey
          (Ne.symm (reasonCountKey_ne_retryCountKey _)),
        inc_value_self]
  · rw [hsnd, inc_value_self, inc_value_other]
    exact reasonCountKey_ne_retryCountKey _
  · intro k hk1 hk2
    rw [hsnd, inc_value_other _ _ _ hk2, inc_value_other _ _ _ hk1]
  · intro e he
    rw [he]
    rfl
  · intro e1 e2 he
    unfold RetryMiddleware._retry
    have hr : (Reason.exc e1).render = (Reason.exc e2).render := by
      simp [Reason.render, global_object_name, he]
    rw [hr]

/-- A second retryable exception of the same type with a different message. -/
def excB : Exc := ⟨ "twisted.internet.defer.TimeoutError", "second message" ⟩

/-- Witness for C7 at concrete inputs: retrying a fresh request on excA bumps
retry/count from 0 to 1 and bumps the reason counter keyed by the type name,
leaves retry/max_reached untouched, and excB (same type, different message)
produces the identical invocation result. -/
theorem retry_stats_increment_witness :
    ((mDefault._retry reqA (Reason.exc excA) statsZero).2 retryCountKey
        = statsZero retryCountKey + 1)
    ∧ ((mDefault._retry reqA (Reason.exc excA) statsZero).2
          (reasonCountKey (Reason.exc excA).render)
        = statsZero (reasonCountKey (Reason.exc excA).render) + 1)
    ∧ ((mDefault._retry reqA (Reason.exc excA) statsZero).2 maxReachedKey
        = statsZero maxReachedKey)
    ∧ mDefault._retry reqA (Reason.exc excA) statsZero
        = mDefault._retry reqA (Reason.exc excB) statsZero := by
  have H := retry_stats_increment mDefault reqA (Reason.exc excA) statsZero
    (retried_request mDefault reqA) (by decide)
  refine ⟨ H.1, H.2.1, ?_, H.2.2.2.2 excA excB rfl ⟩
  exact H.2.2.1 maxReachedKey (by decide) (by decide)

/-- C8: an invocation of the shared retry procedure in which attempts exceed
the effective maximum increments retry/max_reached exactly once and leaves
retry/count and every retry/reason_count key untouched; an invocation that
produces a retry never touches retry/max_reached. -/
theorem max_reached_stats
    (m : RetryMiddleware) (r : Request) (reason : Reason) (stats : Stats) :
    (effective_max m r < r.meta.retry_times.getD 0 + 1 →
        ((m._retry r reason stats).2 maxReachedKey = stats maxReachedKey + 1
          ∧ (m._retry r reason stats).2 retryCountKey = stats retryCountKey
          ∧ ∀ s1 : String,
              (m._retry r reason stats).2 (reasonCountKey s1)
                = stats (reasonCountKey s1)))
    ∧ (r.meta.retry_times.getD 0 + 1 ≤ effective_max m r →
        (m._retry r reason stats).2 maxReachedKey = stats maxReachedKey) := by
  have hsnd := retry_snd_eq m r reason stats
  constructor
  · intro hgt
    rw [if_neg (by omega)] at hsnd
    refine ⟨ ?_, ?_, ?_ ⟩
    · rw [hsnd, inc_value_self]
    · rw [hsnd, inc_value_other]
      decide
    · intro s1
      rw [hsnd, inc_value_other]
      exact reasonCountKey_ne_maxReachedKey s1
  · intro hle
    rw [if_pos hle] at hsnd
    rw [hsnd,
        inc_value_other (stats.inc_value retryCountKey)
          (reasonCountKey reason.render) maxReachedKey
          (Ne.symm (reasonCountKey_ne_maxReachedKey _)),
        inc_value_other stats retryCountKey maxReachedKey (by decide)]

/-- A policy with global maximum three and no retryable exceptions. -/
def m3 : RetryMiddleware := ⟨ 3, [500], 0, [] ⟩

/-- A request already retried twice. -/
def reqT2 : Request := ⟨ urlA, 0, false, ⟨ none, some 2, none, [] ⟩ ⟩

/-- Witness for C8 at concrete inputs, the max_retry_times = 3 scenario:
attempts 1 and 3 (fresh request, request retried twice) leave
retry/max_reached untouched; attempt 4 (request retried three times)
increments it from 0 to 1 and leaves retry/count untouched. -/
theorem max_reached_stats_witness :
    ((m3._retry reqA reasonA statsZero).2 maxReachedKey
        = statsZero maxReachedKey)
    ∧ ((m3._retry reqT2 reasonA statsZero).2 maxReachedKey
        = statsZero maxReachedKey)
    ∧ ((m3._retry reqT3 reasonA statsZero).2 maxReachedKey
        = statsZero maxReachedKey + 1)
    ∧ ((m3._retry reqT3 reasonA statsZero).2 retryCountKey
        = statsZero retryCountKey) := by
  refine ⟨ ?_, ?_, ?_, ?_ ⟩
  · exact (max_reached_stats m3 reqA reasonA statsZero).2 (by decide)
  · exact (max_reached_stats m3 reqT2 reasonA statsZero).2 (by decide)
  · exact ((max_reached_stats m3 reqT3 reasonA statsZero).1 (by decide)).1
  · exact ((max_reached_stats m3 reqT3 reasonA statsZero).1 (by decide)).2.1

/-- Whether a process_response result is a retry decision. -/
def respRetried : RespResult → Bool
  | RespResult.resp _ => false
  | RespResult.req _ => true

theorem retry_isSome_eq (m : RetryMiddleware) (r : Request) (reason : Reason)
    (stats : Stats) :
    (m._retry r reason stats).1.isSome
      = decide (r.meta.retry_times.getD 0 + 1 ≤ effective_max m r) := by
  rw [retry_fst_eq]
  by_cases h : r.meta.retry_times.getD 0 + 1 ≤ effective_max m r
  · simp [h]
  · simp [h]

/-- C9: the retry-or-not decision of both entry points is a pure deterministic
function of the request's retry_times meta value, the effective maximum, the
dont_retry flag and the failure classification alone: any two invocations
(even of two different policy instances) agreeing on those four inputs reach
the same decision, whatever the stats state, the response body or the
exception message. -/
theorem decision_pure_function
    (m1 m2 : RetryMiddleware) (r1 r2 : Request) (stats1 stats2 : Stats)
    (hrt : r1.meta.retry_times.getD 0 = r2.meta.retry_times.getD 0)
    (hmax : effective_max m1 r1 = effective_max m2 r2)
    (hdr : r1.meta.dont_retry.getD false = r2.meta.dont_retry.getD false) :
    (∀ resp1 resp2 : Response,
        ((resp1.status ∈ m1.retry_http_codes) ↔
          (resp2.status ∈ m2.retry_http_codes)) →
        respRetried (m1.process_response r1 resp1 stats1).1
          = respRetried (m2.process_response r2 resp2 stats2).1)
    ∧ (∀ e1 e2 : Exc,
        ((e1.excType ∈ m1.exceptions_to_retry) ↔
          (e2.excType ∈ m2.exceptions_to_retry)) →
        (m1.process_exception r1 e1 stats1).1.isSome
          = (m2.process_exception r2 e2 stats2).1.isSome) := by
  have hdec : ∀ reason1 reason2,
      (m1._retry r1 reason1 stats1).1.isSome
        = (m2._retry r2 reason2 stats2).1.isSome := by
    intro reason1 reason2
    rw [retry_isSome_eq, retry_isSome_eq, hrt, hmax]
  constructor
  · intro resp1 resp2 hcls
    unfold RetryMiddleware.process_response
    by_cases h1 : r1.meta.dont_retry.getD false = true
    · have h2 : r2.meta.dont_retry.getD false = true := by
        rw [← hdr]
        exact h1
      rw [if_pos h1, if_pos h2]
      rfl
    · have h2 : ¬ r2.meta.dont_retry.getD false = true := by
        rw [← hdr]
        exact h1
      rw [if_neg h1, if_neg h2]
      by_cases hin : resp1.status ∈ m1.retry_http_codes
      · have hin2 : resp2.status ∈ m2.retry_http_codes := hcls.mp hin
        rw [if_pos hin, if_pos hin2]
        have hd := hdec
          (Reason.statusMsg (response_status_message resp1.status))
          (Reason.statusMsg (response_status_message resp2.status))
        rcases hq1 : m1._retry r1
            (Reason.statusMsg (response_status_message resp1.status)) stats1
          with ⟨ o1, s1 ⟩
        rcases hq2 : m2._retry r2
            (Reason.statusMsg (response_status_message resp2.status)) stats2
          with ⟨ o2, s2 ⟩
        rw [hq1, hq2] at hd
        rcases o1 with _ | q1 <;> rcases o2 with _ | q2 <;> simp_all [respRetried]
      · have hin2 : resp2.status ∉ m2.retry_http_codes := fun hc => hin (hcls.mpr hc)
        rw [if_neg hin, if_neg hin2]
        rfl
  · intro e1 e2 hcls
    unfold RetryMiddleware.process_exception
    by_cases hin : e1.excType ∈ m1.exceptions_to_retry
        ∧ r1.meta.dont_retry.getD false = false
    · have hin2 : e2.excType ∈ m2.exceptions_to_retry
          ∧ r2.meta.dont_retry.getD false = false := by
        refine ⟨ hcls.mp hin.1, ?_ ⟩
        rw [← hdr]
        exact hin.2
      rw [if_pos hin, if_pos hin2]
      exact hdec (Reason.exc e1) (Reason.exc e2)
    · have hin2 : ¬ (e2.excType ∈ m2.exceptions_to_retry
          ∧ r2.meta.dont_retry.getD false = false) := by
        intro hc
        apply hin
        refine ⟨ hcls.mpr hc.1, ?_ ⟩
        rw [hdr]
        exact hc.2
      rw [if_neg hin, if_neg hin2]

/-- A 503 response with a different body, for the purity witness. -/
def resp503b : Response := ⟨ 503, "a different body" ⟩

/-- A nonzero stats sink, for the purity witness. -/
def statsOne : Stats := fun _ => 1

/-- Witness for C9 at concrete inputs: the same fresh request with two 503
responses that differ in body, against two different stats states, reaches the
same decision; likewise two same-type exceptions with different messages. -/
theorem decision_pure_function_witness :
    respRetried (mDefault.process_response reqA resp503 statsZero).1
      = respRetried (mDefault.process_response reqA resp503b statsOne).1
    ∧ (mDefault.process_exception reqA excA statsZero).1.isSome
      = (mDefault.process_exception reqA excB statsOne).1.isSome := by
  have H := decision_pure_function mDefault mDefault reqA reqA statsZero
    statsOne rfl rfl rfl
  exact ⟨ H.1 resp503 resp503b Iff.rfl, H.2 excA excB Iff.rfl ⟩

/-- C10: process_exception yields the identical no-decision value (none) both
when the exception type is not retryable or dont_retry is set, and when the
exception is retryable but the retry budget is exhausted, so the caller cannot
tell these cases apart from the returned value. -/
theorem no_decision_indistinguishable
    (m : RetryMiddleware) (r : Request) (e : Exc) (stats : Stats) :
    ((e.excType ∉ m.exceptions_to_retry
        ∨ r.meta.dont_retry.getD false = true) →
      (m.process_exception r e stats).1 = none)
    ∧ (effective_max m r < r.meta.retry_times.getD 0 + 1 →
      (m.process_exception r e stats).1 = none) := by
  constructor
  · intro hcase
    unfold RetryMiddleware.process_exception
    rw [if_neg]
    rintro ⟨ hin, hdr ⟩
    rcases hcase with hni | hd
    · exact hni hin
    · rw [hdr] at hd
      exact Bool.false_ne_true hd
  · intro hgt
    unfold RetryMiddleware.process_exception
    by_cases hc : e.excType ∈ m.exceptions_to_retry
        ∧ r.meta.dont_retry.getD false = false
    · rw [if_pos hc, retry_fst_eq, if_neg (by omega)]
    · rw [if_neg hc]

/-- An exception whose type is not among the retryable types. -/
def excC : Exc := ⟨ "builtins.ValueError", "not retryable" ⟩

/-- Witness for C10 at concrete inputs: a non-retryable exception on a fresh
request and a retryable exception on a budget-exhausted request both yield
none. -/
theorem no_decision_indistinguishable_witness :
    (mDefault.process_exception reqA excC statsZero).1 = none
    ∧ (mDefault.process_exception reqT3 excA statsZero).1 = none := by
  constructor
  · exact (no_decision_indistinguishable mDefault reqA excC statsZero).1
      (Or.inl (by decide))
  · exact (no_decision_indistinguishable mDefault reqT3 excA statsZero).2
      (by decide)
